import Mathlib

/-!
Verification development for the rosari-org repository.

Shallow embedding of:
* `src/scripts/rosary-data.ts` — `buildRosarySequence` (step sequence and bead indices)
* `src/scripts/voice-recognition.ts` — `RosaryEngine` (playback state machine)
* `src/scripts/audio-manager.ts` — `AudioManager.fetchXAIAudio` / `generateAudio`
* `src/scripts/storage-manager.ts` — `buildCacheKey` (client audio-cache key)
* `functions/api/tts.js` — `onRequestPost` / `ttsUnavailable` / `buildCacheKey`
  (the edge TTS proxy)

Effects (IndexedDB reads, `fetch`, `decodeAudioData`, KV reads, the upstream
WebSocket session) are modelled as oracles carried in explicit environment
records; each embedded function is a pure function of its environment.
-/

-- ════════════════════════════════════════════════════════════
-- §1  rosary-data.ts — data model and sequence builder
-- ════════════════════════════════════════════════════════════

/-- `MysteryType` from rosary-data.ts. -/
inductive MysteryType
  | joyful
  | sorrowful
  | glorious
  | luminous
deriving DecidableEq, Repr

/-- The `prayer` tag of a `RosaryStep` (the closed union of string literals
in the `RosaryStep` interface of rosary-data.ts). -/
inductive PrayerKind
  | signOfCross
  | apostlesCreed
  | ourFather
  | hailMary
  | gloryBe
  | fatimaPrayer
  | hailHolyQueen
  | closingPrayer
  | goInPeace
  | mysteryAnnounce
deriving DecidableEq, Repr

/-- `RosaryStep` from rosary-data.ts.  Optional TS fields become `Option`;
`beadIndex` is an `Int` because the source stores `-1` for steps without a
bead. -/
structure RosaryStep where
  prayer : PrayerKind
  mysteryIndex : Option Nat := none
  hailMaryIndex : Option Nat := none
  decadeIndex : Option Nat := none
  label : Option String := none
  beadIndex : Option Int := none
deriving DecidableEq, Repr

/-- One decade block of `buildRosarySequence` (the body of the
`for (let d = 0; d < 5; d++)` loop, rosary-data.ts lines 165–173). -/
def decadeBlock (d : Nat) : List RosaryStep :=
  [{ prayer := .mysteryAnnounce, decadeIndex := some d, mysteryIndex := some d },
   { prayer := .ourFather, decadeIndex := some d, beadIndex := some ((6 + d * 11 : Nat) : Int) }]
  ++ (List.range 10).map (fun h =>
     { prayer := .hailMary, decadeIndex := some d, hailMaryIndex := some h,
       beadIndex := some ((7 + d * 11 + h : Nat) : Int) })
  ++ [{ prayer := .gloryBe, decadeIndex := some d, beadIndex := some ((6 + d * 11 + 10 : Nat) : Int) },
      { prayer := .fatimaPrayer, decadeIndex := some d, beadIndex := some ((6 + d * 11 + 10 : Nat) : Int) }]

/-- `buildRosarySequence` from rosary-data.ts lines 150–182.  The source
never reads its `mysteryType` parameter inside the body (the mystery set is
resolved later by the engine via `mysteryIndex`), so neither does the
embedding. -/
def buildRosarySequence (_mysteryType : MysteryType) : List RosaryStep :=
  -- Intro
  [{ prayer := .signOfCross, beadIndex := some (-1) },
   { prayer := .apostlesCreed, beadIndex := some 0 },
  -- Tail beads
   { prayer := .ourFather, beadIndex := some 1 },
   { prayer := .hailMary, hailMaryIndex := some 0, beadIndex := some 2 },
   { prayer := .hailMary, hailMaryIndex := some 1, beadIndex := some 3 },
   { prayer := .hailMary, hailMaryIndex := some 2, beadIndex := some 4 },
   { prayer := .gloryBe, beadIndex := some 5 }]
  -- 5 decades
  ++ (List.range 5).flatMap decadeBlock
  -- Closing
  ++ [{ prayer := .hailHolyQueen, beadIndex := some (-1) },
      { prayer := .closingPrayer, beadIndex := some (-1) },
      { prayer := .signOfCross, beadIndex := some (-1) },
      { prayer := .goInPeace, beadIndex := some (-1) }]

example : (buildRosarySequence .joyful).length = 81 := by decide

-- ════════════════════════════════════════════════════════════
-- §2  voice-recognition.ts — RosaryEngine state machine
-- ════════════════════════════════════════════════════════════

/-- `EngineState` from the engine section of voice-recognition.ts. -/
inductive EngineState
  | idle
  | playing
  | paused
  | finished
deriving DecidableEq, Repr

/-- The mutable fields of the `RosaryEngine` class (voice-recognition.ts,
engine section).  Listener callbacks (`this.listeners`) only observe state
and are dropped from the embedding; `emit()` becomes a no-op. -/
structure RosaryEngine where
  mysteryType : MysteryType
  sequence : List RosaryStep
  currentStepIndex : Nat
  engineState : EngineState
  language : String
  voiceDescription : String
  wordIndex : Nat
deriving Repr

namespace RosaryEngine

/-- The `RosaryEngine` constructor: field initializers plus
`this.sequence = buildRosarySequence(mysteryType)`. -/
def init (mysteryType : MysteryType) : RosaryEngine :=
  { mysteryType := mysteryType
    sequence := buildRosarySequence mysteryType
    currentStepIndex := 0
    engineState := .idle
    language := "English"
    voiceDescription := "elderly rural Piedmontese farmer, gravelly northern Italian drawl"
    wordIndex := 0 }

/-- `RosaryEngine.start()`. -/
def start (s : RosaryEngine) : RosaryEngine :=
  { s with engineState := .playing, currentStepIndex := 0, wordIndex := 0 }

/-- `RosaryEngine.pause()` — note: unconditional, no state guard in the
source. -/
def pause (s : RosaryEngine) : RosaryEngine :=
  { s with engineState := .paused }

/-- `RosaryEngine.resume()` — unconditional, no state guard in the source. -/
def resume (s : RosaryEngine) : RosaryEngine :=
  { s with engineState := .playing }

/-- `RosaryEngine.nextStep()`: returns the new state paired with the JS
return value.  `this.sequence.length - 1` is `Nat` subtraction here, which
agrees with the JS comparison for every reachable length (length 81). -/
def nextStep (s : RosaryEngine) : RosaryEngine × Bool :=
  if s.currentStepIndex < s.sequence.length - 1 then
    ({ s with currentStepIndex := s.currentStepIndex + 1, wordIndex := 0 }, true)
  else
    ({ s with engineState := .finished }, false)

/-- `RosaryEngine.prevStep()`. -/
def prevStep (s : RosaryEngine) : RosaryEngine :=
  if 0 < s.currentStepIndex then
    { s with currentStepIndex := s.currentStepIndex - 1, wordIndex := 0 }
  else s

/-- `RosaryEngine.setWordIndex(idx)`. -/
def setWordIndex (idx : Nat) (s : RosaryEngine) : RosaryEngine :=
  { s with wordIndex := idx }

/-- `RosaryEngine.jumpToStep(idx)` — the JS argument is an arbitrary
number, so the guard `idx >= 0 && idx < this.sequence.length` is kept over
`Int`. -/
def jumpToStep (idx : Int) (s : RosaryEngine) : RosaryEngine :=
  if 0 ≤ idx ∧ idx < (s.sequence.length : Int) then
    { s with currentStepIndex := idx.toNat, wordIndex := 0 }
  else s

/-- `RosaryEngine.setLanguage(language, voiceDescription)`. -/
def setLanguage (language voiceDescription : String) (s : RosaryEngine) : RosaryEngine :=
  { s with language := language, voiceDescription := voiceDescription }

/-- The step resolution done at the top of `RosaryEngine.getState()`:
`this.sequence[this.currentStepIndex] ?? this.sequence[0]!`. -/
def getStateStep (s : RosaryEngine) : Option RosaryStep :=
  (s.sequence.get? s.currentStepIndex).orElse (fun _ => s.sequence.get? 0)

/-- States reachable from a freshly constructed engine through the public
operations. -/
inductive Reachable : RosaryEngine → Prop
  | init (mt : MysteryType) : Reachable (init mt)
  | start {s} : Reachable s → Reachable s.start
  | pause {s} : Reachable s → Reachable s.pause
  | resume {s} : Reachable s → Reachable s.resume
  | next {s} : Reachable s → Reachable s.nextStep.1
  | prev {s} : Reachable s → Reachable s.prevStep
  | setWord (idx : Nat) {s} : Reachable s → Reachable (setWordIndex idx s)
  | jump (idx : Int) {s} : Reachable s → Reachable (jumpToStep idx s)
  | setLang (l v : String) {s} : Reachable s → Reachable (setLanguage l v s)

/-- Iterated `nextStep` (the playback loop's repeated advance). -/
def nextIter (s : RosaryEngine) : Nat → RosaryEngine
  | 0 => s
  | n + 1 => (nextIter s n).nextStep.1

end RosaryEngine

theorem buildRosarySequence_length (mt : MysteryType) :
    (buildRosarySequence mt).length = 81 := rfl

/-- Every reachable engine state has the fixed 81-step sequence and an
in-bounds step index. -/
theorem RosaryEngine.reachable_inv {s : RosaryEngine} (h : s.Reachable) :
    s.sequence.length = 81 ∧ s.currentStepIndex < 81 := by
  induction h with
  | init mt => exact ⟨buildRosarySequence_length mt, by simp [RosaryEngine.init]⟩
  | start h ih => exact ⟨ih.1, by simp [RosaryEngine.start]⟩
  | pause h ih => exact ⟨ih.1, by simpa [RosaryEngine.pause] using ih.2⟩
  | resume h ih => exact ⟨ih.1, by simpa [RosaryEngine.resume] using ih.2⟩
  | next h ih =>
      unfold RosaryEngine.nextStep
      rcases ih with ⟨h1, h2⟩
      split <;> simp_all <;> omega
  | prev h ih =>
      unfold RosaryEngine.prevStep
      rcases ih with ⟨h1, h2⟩
      split <;> simp_all <;> omega
  | setWord idx h ih => exact ⟨ih.1, by simpa [RosaryEngine.setWordIndex] using ih.2⟩
  | jump idx h ih =>
      unfold RosaryEngine.jumpToStep
      rcases ih with ⟨h1, h2⟩
      split <;> simp_all <;> omega
  | setLang l v h ih => exact ⟨ih.1, by simpa [RosaryEngine.setLanguage] using ih.2⟩

-- ════════════════════════════════════════════════════════════
-- §3  audio-manager.ts — TTS client (cache / retry / fallback)
-- ════════════════════════════════════════════════════════════

/-- JavaScript `\s` (the whitespace class used by `split(/\s+/)`,
`replace(/\s+/g, '-')` and `trim()`), restricted to the characters that can
actually occur in this repository's prayer texts and keys. -/
def isJsWhitespace (c : Char) : Bool :=
  c == ' ' || c == '\t' || c == '\n' || c == '\r' ||
  c == Char.ofNat 0x0B || c == Char.ofNat 0x0C || c == Char.ofNat 0xA0

/-- Number of maximal whitespace runs in a character list; `prevWs` records
whether the previous character was whitespace. -/
def wsRuns : List Char → Bool → Nat
  | [], _ => 0
  | c :: rest, prevWs =>
    if isJsWhitespace c then (if prevWs then 0 else 1) + wsRuns rest true
    else wsRuns rest false

/-- `text.split(/\s+/).length` in JavaScript: one field per gap between
maximal whitespace runs, including the empty fields produced by leading or
trailing whitespace, and `[""]` (length 1) for the empty string. -/
def jsSplitWsLen (s : String) : Nat :=
  wsRuns s.data false + 1

example : jsSplitWsLen "Hail Mary, full of grace" = 5 := by decide
example : jsSplitWsLen "" = 1 := by decide
example : jsSplitWsLen " a " = 3 := by decide

/-- `TTSRequest` from audio-manager.ts. -/
structure TTSRequest where
  text : String
  language : String
  languageCode : String
  voiceDescription : String
  prayerKey : String
deriving DecidableEq, Repr

/-- An `ArrayBuffer` of audio bytes. -/
structure ArrayBufferM where
  bytes : List UInt8
deriving DecidableEq, Repr

/-- `buf.byteLength`. -/
def ArrayBufferM.byteLength (b : ArrayBufferM) : Nat := b.bytes.length

/-- A decoded `AudioBuffer`; only `duration` is observed by the embedded
code. -/
structure AudioBufferM where
  duration : ℚ
deriving DecidableEq, Repr

/-- `WordTiming` from storage-manager.ts (`end` is a Lean keyword, renamed
`endTime`). -/
structure WordTiming where
  word : String
  start : ℚ
  endTime : ℚ
deriving DecidableEq, Repr

/-- The part of a stored `AudioCache` entry that `generateAudio` reads.
`audioData` is optional because the code guards with `cached?.audioData`. -/
structure CachedAudio where
  audioData : Option ArrayBufferM
  wordTimings : Option (List WordTiming)
deriving DecidableEq, Repr

/-- Outcome of one `fetch('/api/tts', …)` inside `fetchXAIAudio`:
the `catch` branch, the `!response.ok || JSON content-type` branch, or a
received body (whose size the code then checks). -/
inductive FetchOutcome
  | networkError
  | httpError
  | body (buf : ArrayBufferM)
deriving DecidableEq, Repr

/-- Environment/oracle for `AudioManager.generateAudio`:
`cached` is the result of `loadAudioCache(cacheKey)`, `decode` is
`ctx.decodeAudioData` (`none` = the decode `catch` branch), and
`fetchOutcome n` is what the `n`-th `fetch` attempt produces. -/
structure AudioEnv where
  cached : Option CachedAudio
  decode : ArrayBufferM → Option AudioBufferM
  fetchOutcome : Nat → FetchOutcome

/-- `TTSResult` from audio-manager.ts. -/
structure TTSResult where
  audioBuffer : Option AudioBufferM
  wordTimings : Option (List WordTiming)
  usedFallback : Bool
  duration : ℚ
deriving DecidableEq, Repr

/-- `AudioManager.fetchXAIAudio(req, attempt)` (audio-manager.ts lines
134–182), abstracted over the network oracle.  The source retries (after a
backoff we do not model) exactly while `attempt < 2`, so attempts 1 and 2
are made; recursion terminates because `2 - attempt` decreases. -/
def fetchXAIAudio (fetchOutcome : Nat → FetchOutcome) (attempt : Nat) :
    Option ArrayBufferM :=
  match fetchOutcome attempt with
  | FetchOutcome.networkError =>
    -- the catch branch
    if _h : attempt < 2 then fetchXAIAudio fetchOutcome (attempt + 1) else none
  | FetchOutcome.httpError =>
    -- `!response.ok || ct.includes('application/json')`
    if _h : attempt < 2 then fetchXAIAudio fetchOutcome (attempt + 1) else none
  | FetchOutcome.body buf =>
    if buf.byteLength < 500 then
      if _h : attempt < 2 then fetchXAIAudio fetchOutcome (attempt + 1) else none
    else some buf
termination_by 2 - attempt
decreasing_by all_goals omega

/-- The final fallback of `generateAudio` (audio-manager.ts lines 220–224):
`wordCount = req.text.split(/\s+/).length; duration = wordCount / 2.0`. -/
def fallbackResult (req : TTSRequest) : TTSResult :=
  { audioBuffer := none, wordTimings := none, usedFallback := true,
    duration := (jsSplitWsLen req.text : ℚ) / 2 }

/-- The network half of `generateAudio` (lines 201–224): fetch with
retries, decode on success, fall back on failure.  The best-effort
`saveAudioCache` write does not affect the returned value and is dropped. -/
def fetchThenDecode (env : AudioEnv) (req : TTSRequest) : TTSResult :=
  match fetchXAIAudio env.fetchOutcome 1 with
  | some xaiData =>
    match env.decode xaiData with
    | some buffer =>
      { audioBuffer := some buffer, wordTimings := none, usedFallback := false,
        duration := buffer.duration }
    | none => fallbackResult req
  | none => fallbackResult req

/-- `AudioManager.generateAudio(req)` (audio-manager.ts lines 186–225):
cache lookup, decode with corrupt entries demoted to a miss, then the
network/fallback path. -/
def generateAudio (env : AudioEnv) (req : TTSRequest) : TTSResult :=
  match env.cached with
  | some cached =>
    match cached.audioData with
    | some audioData =>
      match env.decode audioData with
      | some buffer =>
        { audioBuffer := some buffer, wordTimings := cached.wordTimings,
          usedFallback := false, duration := buffer.duration }
      | none => fetchThenDecode env req  -- decode catch: fall through
    | none => fetchThenDecode env req
  | none => fetchThenDecode env req

-- ════════════════════════════════════════════════════════════
-- §4  storage-manager.ts — client-side audio cache key
-- ════════════════════════════════════════════════════════════

/-- `replace(/\s+/g, '-')`: every maximal whitespace run becomes a single
dash; `prevWs` records whether the previous character was whitespace. -/
def jsReplaceWsRunsAux : List Char → Bool → List Char
  | [], _ => []
  | c :: rest, prevWs =>
    if isJsWhitespace c then
      (if prevWs then [] else ['-']) ++ jsReplaceWsRunsAux rest true
    else c :: jsReplaceWsRunsAux rest false

/-- `s.replace(/\s+/g, '-')`. -/
def jsReplaceWsRuns (s : String) : String :=
  String.mk (jsReplaceWsRunsAux s.data false)

/-- `s.trim()` (JS trims the `\s` class from both ends). -/
def jsTrim (s : String) : String :=
  String.mk (((s.data.dropWhile (isJsWhitespace ·)).reverse.dropWhile
    (isJsWhitespace ·)).reverse)

/-- `s.toLowerCase()` (ASCII; the repository's keys, language names and
voice descriptions are ASCII). -/
def jsToLower (s : String) : String :=
  String.mk (s.data.map Char.toLower)

/-- `buildCacheKey` from storage-manager.ts lines 87–89:
`` `${prayerKey}::${language}::${voice}`.toLowerCase().replace(/\s+/g, '-') ``. -/
def buildCacheKey (prayerKey language voice : String) : String :=
  jsReplaceWsRuns (jsToLower (prayerKey ++ "::" ++ language ++ "::" ++ voice))

example : buildCacheKey "hailMary" "English" "warm female voice" =
    "hailmary::english::warm-female-voice" := by decide

/-- The cache key `generateAudio` computes (audio-manager.ts line 187):
`buildCacheKey(req.prayerKey, req.language, req.voiceDescription)` —
note the request's `text` is not an input. -/
def cacheKeyOfRequest (req : TTSRequest) : String :=
  buildCacheKey req.prayerKey req.language req.voiceDescription

-- ════════════════════════════════════════════════════════════
-- §5  functions/api/tts.js — the edge TTS proxy
-- ════════════════════════════════════════════════════════════

/-- `CACHE_VERSION` from tts.js line 26. -/
def CACHE_VERSION : String := "v3-ws"

/-- The SHA-256 pre-image assembled by the server-side `buildCacheKey`
(tts.js lines 51–57): the `'::'.join` of the version tag and the normalized
text / language / voice description.  The version tag is a parameter so the
effect of bumping `CACHE_VERSION` can be stated; the source passes
`CACHE_VERSION` (see `serverCacheKey`). -/
def buildCacheKeyRaw (version text language voiceDescription : String) : String :=
  version ++ "::" ++ jsToLower (jsTrim text) ++ "::"
    ++ jsToLower (jsTrim (if language = "" then "english" else language)) ++ "::"
    ++ jsToLower (jsTrim voiceDescription)

/-- The full server-side key `` `audio::${hex}` `` (tts.js lines 58–60),
abstract in the hex-encoded SHA-256 digest function. -/
def serverCacheKey (sha256hex : String → String)
    (text language voiceDescription : String) : String :=
  "audio::" ++ sha256hex (buildCacheKeyRaw CACHE_VERSION text language voiceDescription)

/-- The value of the `text` field of the parsed request body: absent, a
string, or some non-string JSON value. -/
inductive JsVal
  | str (s : String)
  | nonString
deriving DecidableEq, Repr

/-- The request body fields read by `onRequestPost` (tts.js lines 252–257);
`Option` marks fields that may be absent (destructuring defaults apply). -/
structure TtsBody where
  text : Option JsVal := none
  language : Option String := none
  language_code : Option String := none
  voice_description : Option String := none
deriving DecidableEq, Repr

/-- JSON error body shape used by the proxy.  Fields that a given response
omits are `none`. -/
structure ErrorBody where
  error : String
  fallback : Option String := none
  language : Option String := none
  reason : Option String := none
  text_length : Option Nat := none
deriving DecidableEq, Repr

/-- A proxy response: either 200 binary audio (with the `X-TTS-Provider`
and `X-Language` headers) or a JSON error (with status and optional
`X-TTS-Provider` header). -/
inductive TtsResponse
  | audio (bytes : ArrayBufferM) (provider : String) (language : String)
  | jsonError (status : Nat) (provider : Option String) (body : ErrorBody)
deriving DecidableEq, Repr

/-- Outcome of the KV cache read `kv.getWithMetadata(cacheKey, …)`
(tts.js lines 276–294): no `AUDIO_CACHE` binding, a thrown read error
(caught), a miss, or a hit with bytes and the stored `language` metadata. -/
inductive KvReadResult
  | noBinding
  | readError
  | miss
  | hit (value : ArrayBufferM) (metaLanguage : Option String)
deriving DecidableEq, Repr

/-- Outcome of `xaiVoiceTTS(…)` (tts.js lines 95–236): a WAV buffer, or a
thrown error with its message (WebSocket upgrade failure, upstream `error`
event, 28 s timeout, early close, or `'xAI returned empty audio'`). -/
inductive XaiResult
  | ok (wav : ArrayBufferM)
  | err (message : String)
deriving DecidableEq, Repr

/-- Environment/oracle for one `onRequestPost` invocation. -/
structure ProxyEnv where
  xaiApiKey : Option String
  kvRead : KvReadResult
  xai : XaiResult
deriving DecidableEq, Repr

/-- `ttsUnavailable(language, text, reason)` from tts.js lines 333–339:
status 503, header `X-TTS-Provider: fallback`, JSON body
`{error, fallback: 'web-speech', language, reason, text_length}`.
(`text?.length || 0` equals `text.length` for the string the handler passes.) -/
def ttsUnavailable (language text : String) (reason : String := "") : TtsResponse :=
  .jsonError 503 (some "fallback")
    { error := "TTS unavailable", fallback := some "web-speech",
      language := some language, reason := some reason,
      text_length := some text.length }

/-- Steps 2–3 of the handler (tts.js lines 296–331): call `xaiVoiceTTS`;
on a thrown error answer `ttsUnavailable`, on success answer the WAV with
provider `xai-realtime`.  The fire-and-forget `kv.put` does not affect the
response and is dropped. -/
def proxySynthesize (env : ProxyEnv) (language text : String) : TtsResponse :=
  match env.xai with
  | XaiResult.err msg => ttsUnavailable language text msg
  | XaiResult.ok wav => .audio wav "xai-realtime" language

/-- `metadata?.language || language` (tts.js line 286). -/
def cacheHitLanguage (metaLanguage : Option String) (language : String) : String :=
  match metaLanguage with
  | some ml => if ml = "" then language else ml
  | none => language

/-- `onRequestPost(context)` from tts.js lines 240–331, as a function of
the parsed body (`none` = the `request.json()` catch branch) and the
environment.  The JS validation
`!text || typeof text !== 'string' || text.trim().length === 0 || text.length > 8000`
is split into the non-string match arm and the string-side test. -/
def onRequestPost (env : ProxyEnv) (parsedBody : Option TtsBody) : TtsResponse :=
  match parsedBody with
  | none => .jsonError 400 none { error := "Invalid JSON" }
  | some body =>
    let language := body.language.getD "English"
    match body.text with
    | some (JsVal.str text) =>
      if text = "" ∨ (jsTrim text).length = 0 ∨ text.length > 8000 then
        .jsonError 400 none { error := "Invalid text (1–8000 chars required)" }
      else
        match env.xaiApiKey with
        | none => ttsUnavailable language text "XAI_API_KEY not configured"
        | some _ =>
          -- 1. KV cache check
          match env.kvRead with
          | KvReadResult.hit cached metaLanguage =>
            if cached.byteLength > 500 then
              .audio cached "cache" (cacheHitLanguage metaLanguage language)
            else proxySynthesize env language text
          | _ => proxySynthesize env language text
    | _ => .jsonError 400 none { error := "Invalid text (1–8000 chars required)" }

-- ════════════════════════════════════════════════════════════
-- §6  Claims
-- ════════════════════════════════════════════════════════════

/-- C2, counterexample: the claim says `buildRosarySequence` returns 62
steps in total, but the enumerated structure (7 intro/tail steps, 5
decades of 14 steps, 4 closing steps) has 81 steps, and the code indeed
returns 81. -/
theorem C2_counterexample :
    (buildRosarySequence MysteryType.joyful).length = 81 ∧
    (buildRosarySequence MysteryType.joyful).length ≠ 62 := by
  constructor
  · rfl
  · decide

/-- C2, amended: for each of the 4 mystery types, `buildRosarySequence`
returns exactly, and in this order: 1 sign-of-cross, 1 creed, 1 tail
Our-Father, 3 tail Hail-Marys, 1 tail Glory-Be, then 5 decades each
consisting of 1 mystery-announcement, 1 Our-Father, 10 Hail-Marys,
1 Glory-Be, 1 Fatima-Prayer, then 1 Hail-Holy-Queen, 1 Closing-Prayer,
1 Sign-of-Cross and 1 valediction step — for a total of 81 steps (not
62). -/
theorem C2_sequence_structure (mt : MysteryType) :
    (buildRosarySequence mt).map RosaryStep.prayer =
      [.signOfCross, .apostlesCreed, .ourFather, .hailMary, .hailMary, .hailMary, .gloryBe]
      ++ (List.range 5).flatMap (fun _ =>
           [PrayerKind.mysteryAnnounce, .ourFather]
           ++ List.replicate 10 .hailMary
           ++ [.gloryBe, .fatimaPrayer])
      ++ [.hailHolyQueen, .closingPrayer, .signOfCross, .goInPeace]
    ∧ (buildRosarySequence mt).length = 81 :=
  ⟨rfl, rfl⟩

/-- C3: in every sequence returned by `buildRosarySequence`, a Hail-Mary
step of decade `d` at within-decade offset `h` carries bead index
`7 + d*11 + h`, and the Our-Father step of decade `d` carries bead index
`6 + d*11`. -/
theorem C3_bead_indices (mt : MysteryType) (s : RosaryStep)
    (hs : s ∈ buildRosarySequence mt) :
    (s.prayer = .hailMary → s.decadeIndex.isSome →
       s.beadIndex =
         some ((7 + (s.decadeIndex.getD 0) * 11 + (s.hailMaryIndex.getD 0) : Nat) : Int))
  ∧ (s.prayer = .ourFather → s.decadeIndex.isSome →
       s.beadIndex = some ((6 + (s.decadeIndex.getD 0) * 11 : Nat) : Int)) := by
  revert hs
  revert s
  cases mt <;> decide

/-- C3, witness: the decade-2, offset-3 Hail-Mary step is in the joyful
sequence and carries bead index 7 + 2*11 + 3 = 32. -/
theorem C3_bead_indices_witness :
    ({ prayer := .hailMary, hailMaryIndex := some 3, decadeIndex := some 2,
       beadIndex := some 32 } : RosaryStep) ∈ buildRosarySequence .joyful
  ∧ (({ prayer := .hailMary, hailMaryIndex := some 3, decadeIndex := some 2,
        beadIndex := some 32 } : RosaryStep).prayer = .hailMary →
     ({ prayer := .hailMary, hailMaryIndex := some 3, decadeIndex := some 2,
        beadIndex := some 32 } : RosaryStep).decadeIndex.isSome →
     ({ prayer := .hailMary, hailMaryIndex := some 3, decadeIndex := some 2,
        beadIndex := some 32 } : RosaryStep).beadIndex =
       some ((7 + 2 * 11 + 3 : Nat) : Int)) :=
  ⟨by decide,
   (C3_bead_indices .joyful _ (by decide)).1⟩

/-- C5, counterexample: `pause()` called from the inapplicable state
`idle` (a freshly constructed engine) is not a no-op — it moves the
engine to `paused`, a transition outside `idle → playing ⇄ paused`,
`playing → finished`. -/
theorem C5_counterexample :
    (RosaryEngine.init .joyful).engineState = EngineState.idle
  ∧ ((RosaryEngine.init .joyful).pause).engineState = EngineState.paused
  ∧ EngineState.paused ≠ EngineState.idle :=
  ⟨rfl, rfl, by decide⟩

/-- C5, amended: `pause()` and `resume()` are unconditional — `pause()`
always sets the state to `paused` and `resume()` always sets it to
`playing`, whatever the prior state (including `idle` and `finished`, so
`finished` is not terminal against `pause`/`resume`/`start`); `start()`
always sets `playing`; `nextStep()` either leaves the state unchanged or
sets `finished` (returning false); no other public operation changes the
engine state. -/
theorem C5_amended (s : RosaryEngine) (idx : Int) (w : Nat) (l v : String) :
    (s.pause).engineState = .paused
  ∧ (s.resume).engineState = .playing
  ∧ (s.start).engineState = .playing
  ∧ (s.prevStep).engineState = s.engineState
  ∧ (RosaryEngine.setWordIndex w s).engineState = s.engineState
  ∧ (RosaryEngine.jumpToStep idx s).engineState = s.engineState
  ∧ (RosaryEngine.setLanguage l v s).engineState = s.engineState
  ∧ (s.nextStep.1.engineState = s.engineState
      ∨ (s.nextStep.1.engineState = .finished ∧ s.nextStep.2 = false)) := by
  refine ⟨rfl, rfl, rfl, ?_, rfl, ?_, rfl, ?_⟩
  · unfold RosaryEngine.prevStep
    split <;> rfl
  · unfold RosaryEngine.jumpToStep
    split <;> rfl
  · unfold RosaryEngine.nextStep
    split
    · exact Or.inl rfl
    · exact Or.inr ⟨rfl, rfl⟩

/-- C10: in every reachable engine state the step index stays within
`0 ≤ currentStepIndex ≤ sequence.length - 1`, so the lookup at the top of
`getState()` always resolves a step from the sequence (the `?? sequence[0]`
fallback is never taken). -/
theorem C10_step_index_invariant (s : RosaryEngine) (h : s.Reachable) :
    s.currentStepIndex ≤ s.sequence.length - 1
  ∧ (s.sequence.get? s.currentStepIndex).isSome
  ∧ s.getStateStep = s.sequence.get? s.currentStepIndex := by
  obtain ⟨h1, h2⟩ := RosaryEngine.reachable_inv h
  have hlt : s.currentStepIndex < s.sequence.length := by omega
  have hsome : (s.sequence.get? s.currentStepIndex).isSome := by
    rw [List.get?_eq_get hlt]; rfl
  refine ⟨by omega, hsome, ?_⟩
  unfold RosaryEngine.getStateStep
  obtain ⟨x, hx⟩ := Option.isSome_iff_exists.mp hsome
  rw [hx]
  rfl

/-- C10, witness: the invariant instantiated at a freshly constructed
engine. -/
theorem C10_step_index_invariant_witness :
    (RosaryEngine.init .joyful).currentStepIndex ≤
        (RosaryEngine.init .joyful).sequence.length - 1
  ∧ ((RosaryEngine.init .joyful).sequence.get?
        (RosaryEngine.init .joyful).currentStepIndex).isSome
  ∧ (RosaryEngine.init .joyful).getStateStep =
      (RosaryEngine.init .joyful).sequence.get?
        (RosaryEngine.init .joyful).currentStepIndex :=
  C10_step_index_invariant _ (RosaryEngine.Reachable.init .joyful)

theorem RosaryEngine.nextStep_true (s : RosaryEngine)
    (h : s.currentStepIndex < s.sequence.length - 1) :
    s.nextStep = ({ s with currentStepIndex := s.currentStepIndex + 1, wordIndex := 0 }, true) := by
  unfold RosaryEngine.nextStep
  rw [if_pos h]

theorem RosaryEngine.nextStep_false (s : RosaryEngine)
    (h : ¬ s.currentStepIndex < s.sequence.length - 1) :
    s.nextStep = ({ s with engineState := .finished }, false) := by
  unfold RosaryEngine.nextStep
  rw [if_neg h]

theorem RosaryEngine.nextIter_add (s : RosaryEngine) (a b : Nat) :
    RosaryEngine.nextIter s (a + b) = RosaryEngine.nextIter (RosaryEngine.nextIter s a) b := by
  induction b with
  | zero => rfl
  | succ n ih =>
    rw [Nat.add_succ]
    show (RosaryEngine.nextIter s (a + n)).nextStep.1 =
      (RosaryEngine.nextIter (RosaryEngine.nextIter s a) n).nextStep.1
    rw [ih]

/-- While steps remain, iterated `nextStep` advances the index one at a
time without touching the sequence or the engine state. -/
theorem RosaryEngine.nextIter_progress (s : RosaryEngine)
    (h1 : s.sequence.length = 81) :
    ∀ j, s.currentStepIndex + j ≤ 80 →
      (RosaryEngine.nextIter s j).sequence = s.sequence
    ∧ (RosaryEngine.nextIter s j).currentStepIndex = s.currentStepIndex + j
    ∧ (RosaryEngine.nextIter s j).engineState = s.engineState := by
  intro j
  induction j with
  | zero => intro _; exact ⟨rfl, rfl, rfl⟩
  | succ n ih =>
    intro hj
    obtain ⟨hs, hi, he⟩ := ih (by omega)
    have hlt : (RosaryEngine.nextIter s n).currentStepIndex <
        (RosaryEngine.nextIter s n).sequence.length - 1 := by
      rw [hs, h1, hi]; omega
    have hstep : RosaryEngine.nextIter s (n + 1) =
        { RosaryEngine.nextIter s n with
            currentStepIndex := (RosaryEngine.nextIter s n).currentStepIndex + 1,
            wordIndex := 0 } := by
      show ((RosaryEngine.nextIter s n).nextStep).1 = _
      rw [RosaryEngine.nextStep_true _ hlt]
    rw [hstep]
    refine ⟨hs, ?_, he⟩
    show (RosaryEngine.nextIter s n).currentStepIndex + 1 = _
    rw [hi]
    omega

/-- At the last index, `nextStep` pins the index and sets `finished`. -/
theorem RosaryEngine.nextStep_stuck (t : RosaryEngine)
    (h1 : t.sequence.length = 81) (h2 : t.currentStepIndex = 80) :
    t.nextStep = ({ t with engineState := .finished }, false) :=
  RosaryEngine.nextStep_false t (by omega)

theorem RosaryEngine.nextIter_stuck (s : RosaryEngine)
    (h1 : s.sequence.length = 81) (h2 : s.currentStepIndex = 80) :
    ∀ j, (RosaryEngine.nextIter s (j + 1)).currentStepIndex = 80
       ∧ (RosaryEngine.nextIter s (j + 1)).engineState = .finished
       ∧ (RosaryEngine.nextIter s (j + 1)).sequence = s.sequence := by
  intro j
  induction j with
  | zero =>
    have hstep : RosaryEngine.nextIter s 1 = { s with engineState := .finished } := by
      show (s.nextStep).1 = _
      rw [RosaryEngine.nextStep_stuck s h1 h2]
    rw [hstep]
    exact ⟨h2, rfl, rfl⟩
  | succ n ih =>
    obtain ⟨hi, he, hs⟩ := ih
    have hstep : RosaryEngine.nextIter s (n + 1 + 1) =
        { RosaryEngine.nextIter s (n + 1) with engineState := .finished } := by
      show ((RosaryEngine.nextIter s (n + 1)).nextStep).1 = _
      rw [RosaryEngine.nextStep_stuck _ (by rw [hs, h1]) hi]
    rw [hstep]
    exact ⟨hi, rfl, hs⟩

/-- C4: from every reachable engine state, `nextStep()` increments the
step index, resets the word index and returns `true` while steps remain,
and otherwise sets `finished` and returns `false`; iterating `nextStep`
returns `true` on every call before the `(length-1-index)`-th, `false` on
that call (the first and only `false` before the loop stops), and keeps
the engine in `finished` (still answering `false`) on every later call.
`prevStep()` never changes the engine state, decrements the index and
resets the word index when the index is positive, and is a no-op at index
0. -/
theorem C4_nextStep_prevStep (s : RosaryEngine) (h : s.Reachable) :
    (s.currentStepIndex < s.sequence.length - 1 →
        s.nextStep = ({ s with currentStepIndex := s.currentStepIndex + 1, wordIndex := 0 }, true))
  ∧ (¬ s.currentStepIndex < s.sequence.length - 1 →
        s.nextStep = ({ s with engineState := .finished }, false))
  ∧ (∀ j, j < s.sequence.length - 1 - s.currentStepIndex →
        ((RosaryEngine.nextIter s j).nextStep).2 = true)
  ∧ ((RosaryEngine.nextIter s (s.sequence.length - 1 - s.currentStepIndex)).nextStep).2 = false
  ∧ (∀ j, s.sequence.length - 1 - s.currentStepIndex < j →
        (RosaryEngine.nextIter s j).engineState = .finished
      ∧ ((RosaryEngine.nextIter s j).nextStep).2 = false)
  ∧ (s.prevStep).engineState = s.engineState
  ∧ (0 < s.currentStepIndex →
        s.prevStep = { s with currentStepIndex := s.currentStepIndex - 1, wordIndex := 0 })
  ∧ (s.currentStepIndex = 0 → s.prevStep = s) := by
  obtain ⟨h1, h2⟩ := RosaryEngine.reachable_inv h
  have hk : s.sequence.length - 1 - s.currentStepIndex = 80 - s.currentStepIndex := by omega
  refine ⟨RosaryEngine.nextStep_true s, RosaryEngine.nextStep_false s, ?_, ?_, ?_, ?_, ?_, ?_⟩
  · intro j hj
    obtain ⟨hs, hi, _⟩ := RosaryEngine.nextIter_progress s h1 j (by omega)
    rw [RosaryEngine.nextStep_true _ (by rw [hs, h1, hi]; omega)]
  · obtain ⟨hs, hi, _⟩ :=
      RosaryEngine.nextIter_progress s h1 (s.sequence.length - 1 - s.currentStepIndex) (by omega)
    rw [RosaryEngine.nextStep_stuck _ (by rw [hs, h1]) (by rw [hi]; omega)]
  · intro j hj
    -- split the run at the moment the last index is reached
    obtain ⟨hs, hi, _⟩ := RosaryEngine.nextIter_progress s h1 (80 - s.currentStepIndex) (by omega)
    have hdecomp : j = (80 - s.currentStepIndex) + ((j - (80 - s.currentStepIndex) - 1) + 1) := by
      omega
    rw [hdecomp, RosaryEngine.nextIter_add]
    obtain ⟨hi', he', hs'⟩ :=
      RosaryEngine.nextIter_stuck _ (by rw [hs, h1]) (by rw [hi]; omega)
        (j - (80 - s.currentStepIndex) - 1)
    refine ⟨he', ?_⟩
    rw [RosaryEngine.nextStep_stuck _ (by rw [hs', hs, h1]) hi']
  · unfold RosaryEngine.prevStep
    split <;> rfl
  · intro hpos
    unfold RosaryEngine.prevStep
    rw [if_pos hpos]
  · intro hzero
    unfold RosaryEngine.prevStep
    rw [if_neg (by omega)]

/-- C4, witness: the theorem instantiated at a freshly constructed engine
(step index 0, 81 steps). -/
theorem C4_nextStep_prevStep_witness :
    ((RosaryEngine.init .joyful).currentStepIndex <
        (RosaryEngine.init .joyful).sequence.length - 1 →
      (RosaryEngine.init .joyful).nextStep =
        ({ RosaryEngine.init .joyful with
             currentStepIndex := (RosaryEngine.init .joyful).currentStepIndex + 1,
             wordIndex := 0 }, true))
  ∧ (¬ (RosaryEngine.init .joyful).currentStepIndex <
        (RosaryEngine.init .joyful).sequence.length - 1 →
      (RosaryEngine.init .joyful).nextStep =
        ({ RosaryEngine.init .joyful with engineState := .finished }, false))
  ∧ (∀ j, j < (RosaryEngine.init .joyful).sequence.length - 1 -
            (RosaryEngine.init .joyful).currentStepIndex →
        ((RosaryEngine.nextIter (RosaryEngine.init .joyful) j).nextStep).2 = true)
  ∧ ((RosaryEngine.nextIter (RosaryEngine.init .joyful)
        ((RosaryEngine.init .joyful).sequence.length - 1 -
          (RosaryEngine.init .joyful).currentStepIndex)).nextStep).2 = false
  ∧ (∀ j, (RosaryEngine.init .joyful).sequence.length - 1 -
            (RosaryEngine.init .joyful).currentStepIndex < j →
        (RosaryEngine.nextIter (RosaryEngine.init .joyful) j).engineState = .finished
      ∧ ((RosaryEngine.nextIter (RosaryEngine.init .joyful) j).nextStep).2 = false)
  ∧ ((RosaryEngine.init .joyful).prevStep).engineState =
      (RosaryEngine.init .joyful).engineState
  ∧ (0 < (RosaryEngine.init .joyful).currentStepIndex →
      (RosaryEngine.init .joyful).prevStep =
        { RosaryEngine.init .joyful with
            currentStepIndex := (RosaryEngine.init .joyful).currentStepIndex - 1,
            wordIndex := 0 })
  ∧ ((RosaryEngine.init .joyful).currentStepIndex = 0 →
      (RosaryEngine.init .joyful).prevStep = RosaryEngine.init .joyful) :=
  C4_nextStep_prevStep _ (RosaryEngine.Reachable.init .joyful)

/-- C1: `generateAudio` is total (it is a Lean function, so it returns a
result for every request and environment — the retry recursion is bounded
by `attempt < 2`), and whenever the cache path yields no decodable audio
and the bounded-retry fetch yields no decodable audio, the result is
exactly `usedFallback = true` with duration = word count / 2 (the assumed
~2 words/second rate), where the word count is
`req.text.split(/\s+/).length`. -/
theorem C1_generateAudio_fallback (env : AudioEnv) (req : TTSRequest)
    (hcache : ∀ c, env.cached = some c → ∀ a, c.audioData = some a →
        env.decode a = none)
    (hfetch : ∀ buf, fetchXAIAudio env.fetchOutcome 1 = some buf →
        env.decode buf = none) :
    generateAudio env req =
      { audioBuffer := none, wordTimings := none, usedFallback := true,
        duration := (jsSplitWsLen req.text : ℚ) / 2 } := by
  have hstep : fetchThenDecode env req = fallbackResult req := by
    unfold fetchThenDecode
    cases hfx : fetchXAIAudio env.fetchOutcome 1 with
    | none => rfl
    | some buf => simp only [hfetch buf hfx]
  unfold generateAudio
  cases hc : env.cached with
  | none => exact hstep
  | some c =>
    cases ha : c.audioData with
    | none =>
      simp only [ha]
      exact hstep
    | some a =>
      simp only [ha, hcache c hc a ha]
      exact hstep

/-- C1, witness: a cache miss plus a proxy that answers an error on every
attempt forces the word-paced fallback result. -/
theorem C1_generateAudio_fallback_witness :
    generateAudio
      { cached := none, decode := fun _ => none,
        fetchOutcome := fun _ => FetchOutcome.httpError }
      { text := "Hail Mary, full of grace", language := "English",
        languageCode := "en-US", voiceDescription := "warm female voice",
        prayerKey := "hailMary" } =
      { audioBuffer := none, wordTimings := none, usedFallback := true,
        duration := (jsSplitWsLen "Hail Mary, full of grace" : ℚ) / 2 } :=
  C1_generateAudio_fallback _ _ (fun _ h => nomatch h) (fun _ _ => rfl)

/-- C8: a cache entry whose audio bytes fail to decode is handled exactly
like a cache miss — `generateAudio` returns the same result it would have
returned with no cache entry at all, so the decode failure is never
surfaced as a failure of the overall request. -/
theorem C8_corrupt_cache_is_miss (env : AudioEnv) (req : TTSRequest)
    (c : CachedAudio) (a : ArrayBufferM)
    (hc : env.cached = some c) (ha : c.audioData = some a)
    (hd : env.decode a = none) :
    generateAudio env req = generateAudio { env with cached := none } req := by
  unfold generateAudio
  simp only [hc, ha, hd]
  rfl

/-- C8, witness: a concrete corrupt cache entry (decode oracle rejects
everything) behaves exactly like the empty cache. -/
theorem C8_corrupt_cache_is_miss_witness :
    generateAudio
      { cached := some { audioData := some { bytes := [0, 1, 2] }, wordTimings := none },
        decode := fun _ => none,
        fetchOutcome := fun _ => FetchOutcome.networkError }
      { text := "Glory be", language := "English", languageCode := "en-US",
        voiceDescription := "warm female voice", prayerKey := "gloryBe" } =
    generateAudio
      { cached := none, decode := fun _ => none,
        fetchOutcome := fun _ => FetchOutcome.networkError }
      { text := "Glory be", language := "English", languageCode := "en-US",
        voiceDescription := "warm female voice", prayerKey := "gloryBe" } :=
  C8_corrupt_cache_is_miss _ _ _ _ rfl rfl rfl

/-- `true` exactly when the KV cache check (tts.js lines 276–294) serves
the response: a hit whose value exceeds the 500-byte sanity floor. -/
def kvServes : KvReadResult → Bool
  | KvReadResult.hit value _ => decide (value.byteLength > 500)
  | _ => false

/-- C6, counterexample: on a synthesis failure the proxy's JSON error body
carries `fallback: "web-speech"`, not `"use-local-pacing"`, and it DOES
surface the raw upstream error to the caller — the thrown upstream message
appears verbatim in the body's `reason` field. -/
theorem C6_counterexample :
    onRequestPost
      { xaiApiKey := some "key", kvRead := KvReadResult.noBinding,
        xai := XaiResult.err "xAI returned empty audio" }
      (some { text := some (JsVal.str "Hail Mary"), language := some "English" }) =
      TtsResponse.jsonError 503 (some "fallback")
        { error := "TTS unavailable", fallback := some "web-speech",
          language := some "English", reason := some "xAI returned empty audio",
          text_length := some 9 }
  ∧ some "web-speech" ≠ some "use-local-pacing" := by
  constructor
  · decide
  · decide

/-- C6, amended: whenever the synthesis path fails — the API key is
missing, or the cache does not serve and `xaiVoiceTTS` throws (session
open failure, upstream error event, timeout, insufficient audio) — the
proxy returns status 503 with the JSON body
`{error: "TTS unavailable", fallback: "web-speech", language, reason,
text_length}`, where `reason` carries the (raw) failure message. -/
theorem C6_failure_body (env : ProxyEnv) (body : TtsBody) (text : String)
    (htext : body.text = some (JsVal.str text))
    (hvalid : ¬(text = "" ∨ (jsTrim text).length = 0 ∨ text.length > 8000))
    (hfail : env.xaiApiKey = none ∨
      (kvServes env.kvRead = false ∧ ∃ m, env.xai = XaiResult.err m)) :
    ∃ reason, onRequestPost env (some body) =
      TtsResponse.jsonError 503 (some "fallback")
        { error := "TTS unavailable", fallback := some "web-speech",
          language := some (body.language.getD "English"), reason := some reason,
          text_length := some text.length } := by
  unfold onRequestPost
  simp only [htext]
  rw [if_neg hvalid]
  rcases hfail with hkey | ⟨hkv, m, hx⟩
  · rw [hkey]
    exact ⟨"XAI_API_KEY not configured", rfl⟩
  · cases hk : env.xaiApiKey with
    | none => exact ⟨"XAI_API_KEY not configured", rfl⟩
    | some key =>
      have hsynth : proxySynthesize env (body.language.getD "English") text =
          ttsUnavailable (body.language.getD "English") text m := by
        unfold proxySynthesize
        rw [hx]
      cases hkr : env.kvRead with
      | hit value metaLanguage =>
        rw [hkr] at hkv
        have hle : ¬ value.byteLength > 500 := by
          simpa [kvServes] using hkv
        simp only [if_neg hle]
        exact ⟨m, hsynth⟩
      | noBinding => exact ⟨m, hsynth⟩
      | readError => exact ⟨m, hsynth⟩
      | miss => exact ⟨m, hsynth⟩

/-- C6, witness: a missing API key on an otherwise valid request produces
the 503 `web-speech` fallback body. -/
theorem C6_failure_body_witness :
    ∃ reason,
      onRequestPost
        { xaiApiKey := none, kvRead := KvReadResult.miss,
          xai := XaiResult.ok { bytes := [] } }
        (some { text := some (JsVal.str "Ave Maria"), language := some "Latin" }) =
      TtsResponse.jsonError 503 (some "fallback")
        { error := "TTS unavailable", fallback := some "web-speech",
          language := some "Latin", reason := some reason,
          text_length := some ("Ave Maria" : String).length } :=
  C6_failure_body _ _ _ rfl (by decide) (Or.inl rfl)

/-- C7: a POST body whose `text` is missing, not a string, empty after
trimming, or longer than 8000 characters is answered with the 400
`Invalid text` JSON error, identically for every environment — in
particular the upstream voice backend plays no part and nothing is
retried; and a request whose text is non-empty after trimming and at most
8000 characters long is never answered with a 400. -/
theorem C7_input_validation (env : ProxyEnv) (body : TtsBody) :
    ((body.text = none
        ∨ body.text = some JsVal.nonString
        ∨ (∃ s, body.text = some (JsVal.str s)
             ∧ ((jsTrim s).length = 0 ∨ s.length > 8000))) →
      onRequestPost env (some body) =
        TtsResponse.jsonError 400 none { error := "Invalid text (1–8000 chars required)" })
  ∧ (∀ s, body.text = some (JsVal.str s) → (jsTrim s).length ≠ 0 → s.length ≤ 8000 →
      ∀ provider errBody,
        onRequestPost env (some body) ≠ TtsResponse.jsonError 400 provider errBody) := by
  constructor
  · intro hbad
    unfold onRequestPost
    rcases hbad with hnone | hnonstr | ⟨s, hstr, hrej⟩
    · simp only [hnone]
    · simp only [hnonstr]
    · simp only [hstr]
      rw [if_pos (Or.inr hrej)]
  · intro s hstr htrim hlen provider errBody
    unfold onRequestPost
    simp only [hstr]
    have hok : ¬(s = "" ∨ (jsTrim s).length = 0 ∨ s.length > 8000) := by
      rintro (rfl | h0 | hbig)
      · exact htrim rfl
      · exact htrim h0
      · omega
    rw [if_neg hok]
    cases env.xaiApiKey with
    | none => simp [ttsUnavailable]
    | some key =>
      cases env.kvRead with
      | hit value metaLanguage =>
        by_cases hbig : value.byteLength > 500
        · simp [hbig]
        · cases hx : env.xai with
          | err m => simp [hbig, hx, proxySynthesize, ttsUnavailable]
          | ok wav => simp [hbig, hx, proxySynthesize]
      | noBinding =>
        cases hx : env.xai with
        | err m => simp [hx, proxySynthesize, ttsUnavailable]
        | ok wav => simp [hx, proxySynthesize]
      | readError =>
        cases hx : env.xai with
        | err m => simp [hx, proxySynthesize, ttsUnavailable]
        | ok wav => simp [hx, proxySynthesize]
      | miss =>
        cases hx : env.xai with
        | err m => simp [hx, proxySynthesize, ttsUnavailable]
        | ok wav => simp [hx, proxySynthesize]

/-- C7, witness: a body with no `text` field is rejected with the 400
error, and the prayer text "Hail Mary" passes validation (first vs second
conjunct of the theorem at concrete inputs). -/
theorem C7_input_validation_witness :
    onRequestPost
      { xaiApiKey := some "key", kvRead := KvReadResult.miss,
        xai := XaiResult.ok { bytes := [] } }
      (some ({ text := none } : TtsBody)) =
      TtsResponse.jsonError 400 none { error := "Invalid text (1–8000 chars required)" }
  ∧ ∀ provider errBody,
      onRequestPost
        { xaiApiKey := some "key", kvRead := KvReadResult.miss,
          xai := XaiResult.ok { bytes := [] } }
        (some ({ text := some (JsVal.str "Hail Mary") } : TtsBody)) ≠
        TtsResponse.jsonError 400 provider errBody :=
  ⟨(C7_input_validation _ _).1 (Or.inl rfl),
   (C7_input_validation _ _).2 "Hail Mary" rfl (by decide) (by decide)⟩

/-- C9, counterexample: the client-side Audio Cache key is NOT
content-addressed by the normalized text (nor by any cache-format
version): two `generateAudio` requests with different texts but the same
prayer key, language and voice description produce the identical cache
key. -/
theorem C9_counterexample :
    cacheKeyOfRequest
      { text := "Hail Mary, full of grace", language := "English",
        languageCode := "en-US", voiceDescription := "warm female voice",
        prayerKey := "hailMary" } =
    cacheKeyOfRequest
      { text := "Go in peace.", language := "English",
        languageCode := "en-US", voiceDescription := "warm female voice",
        prayerKey := "hailMary" }
  ∧ ("Hail Mary, full of grace" : String) ≠ "Go in peace." := by
  constructor
  · rfl
  · decide

/-- C9, amended: only the proxy's server-side key is version-tagged — its
SHA-256 pre-image is determined by (cache-format version, normalized text,
language, voice description) and distinct version tags always give
distinct pre-images, so bumping `CACHE_VERSION` re-keys every server-side
entry; the client-side key is a deterministic function of (prayer key,
language, voice description) alone — in particular it does not depend on
the request text. -/
theorem C9_cache_keys (v1 v2 text language voice : String) (hv : v1 ≠ v2)
    (r1 r2 : TTSRequest) (hpk : r1.prayerKey = r2.prayerKey)
    (hl : r1.language = r2.language)
    (hvd : r1.voiceDescription = r2.voiceDescription) :
    buildCacheKeyRaw v1 text language voice ≠ buildCacheKeyRaw v2 text language voice
  ∧ cacheKeyOfRequest r1 = cacheKeyOfRequest r2 := by
  constructor
  · intro heq
    apply hv
    have h2 := congrArg String.data heq
    simp only [buildCacheKeyRaw, String.data_append, List.append_assoc] at h2
    exact String.ext (List.append_cancel_right h2)
  · unfold cacheKeyOfRequest
    rw [hpk, hl, hvd]

/-- C9, witness: bumping the version tag `v3-ws` to `v4-ws` changes the
server pre-image for a concrete prayer, while two client requests that
differ only in text share a key. -/
theorem C9_cache_keys_witness :
    buildCacheKeyRaw "v3-ws" "Hail Mary" "English" "warm female voice" ≠
      buildCacheKeyRaw "v4-ws" "Hail Mary" "English" "warm female voice"
  ∧ cacheKeyOfRequest
      { text := "Our Father, Who art in Heaven", language := "English",
        languageCode := "en-US", voiceDescription := "warm female voice",
        prayerKey := "ourFather" } =
    cacheKeyOfRequest
      { text := "Our Father", language := "English",
        languageCode := "en-US", voiceDescription := "warm female voice",
        prayerKey := "ourFather" } :=
  C9_cache_keys "v3-ws" "v4-ws" "Hail Mary" "English" "warm female voice"
    (by decide) _ _ rfl rfl rfl
